import Mathlib

/-!
Verification of the quotes scraper (`scrape_quotes.py`).

The scraper drives a browser over a paginated site, extracts one record per
quote container, follows the "next page" link until none exists, and writes
the records as line-delimited JSON.  We embed the pure content of the code:

* a page is a list of quote containers, each holding the optional sub-elements
  the code looks up (`span.text`, `small.author`) and the list of tag texts;
* the environment (`site`) maps a URL to what the driver observes when the
  loop body runs against that URL: a loaded page, a `TimeoutException` from
  the bounded wait, or an exception of any other type;
* the `while True` loop of `scrape_all_pages` becomes a fuel-indexed
  recursion (`crawlBody`); the surrounding `try/except TimeoutException/
  finally` becomes the dispatch in `scrape_all_pages`, which counts the
  `driver.quit()` calls performed by the `finally` block;
* `save_to_txt` (one `json.dumps(obj, ensure_ascii=False)` per line) becomes
  a character-level serializer, together with a parser for the emitted
  grammar used to state the round-trip property.
-/

/-- One record as built by the extraction loop: `{"quote": ..., "author": ...,
"tags": [...]}` (lines 101-105 / 149-153 of `scrape_quotes.py`). -/
structure Record where
  quote : String
  author : String
  tags : List String
deriving DecidableEq

/-- A quote container (`div.quote`): the sub-elements the code looks up.
`none` models `find_element` raising `NoSuchElementException`; `tags` models
`find_elements`, which returns a (possibly empty) list and never raises. -/
structure Container where
  text : Option String
  author : Option String
  tags : List String
deriving DecidableEq

/-- The `li.next > a` element with the two attributes the code reads.
`none` models `get_attribute` returning `None`. -/
structure NextLink where
  href : Option String
  dataHref : Option String
deriving DecidableEq

/-- A loaded page: its quote containers in document order, and the next-page
link element if present (`none` models `NoSuchElementException` at line 160). -/
structure Page where
  containers : List Container
  nextLink : Option NextLink
deriving DecidableEq

/-- What the driver observes when the loop body runs against a URL: the page
loads and the bounded wait succeeds, or the wait raises `TimeoutException`,
or an exception of some other type is raised during the iteration.
`raiseOther` abstracts the latter at iteration granularity: such an exception
may fire anywhere in the iteration, also in the middle of the per-container
loop (e.g. a `StaleElementReferenceException`, which the inner
`except NoSuchElementException` does not catch) after some records of the
current page were already appended; since the surrounding `except` clause
does not catch it either, those partial-page records never reach the caller,
and the model does not track them. -/
inductive PageResult where
  | loaded (p : Page)
  | timeout
  | raiseOther
deriving DecidableEq

/-- Exception classes distinguished by the `except` clause at line 171:
`TimeoutException` is caught, everything else propagates. -/
inductive PyExn where
  | timeoutExc
  | otherExc
deriving DecidableEq

/-- Python truthiness of an optional string: `None` and `""` are falsy. -/
def truthy : Option String → Bool
  | none => false
  | some s => s != ""

/-- Python `a or b` on optional strings: `a` when truthy, `b` otherwise. -/
def pyOr (a b : Option String) : Option String :=
  if truthy a then a else b

/-- Python `s.rstrip('/')`: remove every trailing `'/'`. -/
def rstripSlash (s : String) : String :=
  String.mk (s.data.reverse.dropWhile (fun c => c = '/')).reverse

/-- Per-container extraction (lines 148-156): look up `span.text`, then
`small.author`; a `NoSuchElementException` from either is caught and the
container yields no record; otherwise the record is built with the tag
texts in document order. -/
def extractContainer (q : Container) : Option Record :=
  match q.text with
  | none => none
  | some quote_text =>
    match q.author with
    | none => none
    | some author => some { quote := quote_text, author := author, tags := q.tags }

/-- Per-page extraction (the `for idx, q in enumerate(quotes)` loop):
containers are processed in document order and each successful extraction is
appended, so the page contributes `filterMap extractContainer`. -/
def extractPage (quotes : List Container) : List Record :=
  quotes.filterMap extractContainer

/-- Next-URL computation (lines 161-165): take `href`; if falsy, re-read
`href` `or` `data-href`; if the result is still falsy, synthesize
`driver.current_url.rstrip('/') + "/page/2/"`. -/
def resolveNextUrl (link : NextLink) (current_url : String) : String :=
  let next_href := link.href
  let next_href := if truthy next_href then next_href else pyOr link.href link.dataHref
  if truthy next_href then next_href.getD "" else rstripSlash current_url ++ "/page/2/"

/-- The `while True` loop body of `scrape_all_pages` (lines 139-169) as a
fuel-indexed recursion.  `Except.ok` is the normal `break` (no next-page
element); `Except.error` carries the exception class together with the
accumulator, tracked at page granularity: for `.timeoutExc` this is exact
(the wait raises before any append on the failing page), while for
`.otherExc` a concrete mid-container raise may have appended part of the
failing page — records that propagation makes unobservable, so the model
carries only the fully processed pages.  `none` means the fuel ran out
before the loop finished (a modelling artifact, not a behaviour of the code). -/
def crawlBody (site : String → PageResult) : Nat → String → List Record →
    Option (Except (PyExn × List Record) (List Record))
  | 0, _, _ => none
  | fuel + 1, current_url, all_items =>
    match site current_url with
    | .timeout => some (.error (.timeoutExc, all_items))
    | .raiseOther => some (.error (.otherExc, all_items))
    | .loaded p =>
      let items := all_items ++ extractPage p.containers
      match p.nextLink with
      | none => some (.ok items)
      | some link => crawlBody site fuel (resolveNextUrl link current_url) items

deriving instance DecidableEq for Except

/-- Observable outcome of a run: what reaches the caller (`Except.ok` is a
normal return, `Except.error` a propagated exception) and how many times
`driver.quit()` ran. -/
structure Outcome where
  result : Except PyExn (List Record)
  quitCount : Nat
deriving DecidableEq

/-- `scrape_all_pages` (lines 127-177): run the loop under
`try/except TimeoutException/finally`.  The `finally` block quits the driver
exactly once on every path; a caught `TimeoutException` falls through to
`return all_items`; any other exception propagates after the `finally`. -/
def scrape_all_pages (site : String → PageResult) (fuel : Nat) (start_url : String) :
    Option Outcome :=
  match crawlBody site fuel start_url [] with
  | none => none
  | some (.ok items) => some { result := .ok items, quitCount := 1 }
  | some (.error (.timeoutExc, items)) => some { result := .ok items, quitCount := 1 }
  | some (.error (.otherExc, _)) => some { result := .error .otherExc, quitCount := 1 }

/-- `scrape_first_page` (lines 81-117): one page only, same extraction, same
`try/except TimeoutException/finally` shape around it. -/
def scrape_first_page (page : PageResult) : Outcome :=
  match page with
  | .loaded p => { result := .ok (extractPage p.containers), quitCount := 1 }
  | .timeout => { result := .ok [], quitCount := 1 }
  | .raiseOther => { result := .error .otherExc, quitCount := 1 }

/-- The pages the loop fully processes, in visit order: recursion stops at the
first URL that does not load (timeout or other exception) or at a page with
no next-page element. -/
def visitedPages (site : String → PageResult) : Nat → String → List Page
  | 0, _ => []
  | fuel + 1, current_url =>
    match site current_url with
    | .loaded p =>
      p :: (match p.nextLink with
        | none => []
        | some link => visitedPages site fuel (resolveNextUrl link current_url))
    | _ => []

/-- Declarative description of the accumulator: the concatenation, page by
page in visit order, of each visited page's extracted records. -/
def collectedRecords (site : String → PageResult) (fuel : Nat) (url : String) : List Record :=
  (visitedPages site fuel url).flatMap (fun p => extractPage p.containers)

/-- Prepend a prefix to the accumulator carried by a loop result. -/
def prependAcc (acc : List Record) :
    Except (PyExn × List Record) (List Record) → Except (PyExn × List Record) (List Record)
  | .ok l => .ok (acc ++ l)
  | .error (e, l) => .error (e, acc ++ l)

/-- The accumulator carried by a loop result, whichever way the loop ended. -/
def crawlPayload : Except (PyExn × List Record) (List Record) → List Record
  | .ok l => l
  | .error (_, l) => l

/-- Lowercase hex digit, as CPython's `json` emits in `\u00XX` escapes. -/
def hexDigitChar (n : Nat) : Char :=
  if n < 10 then Char.ofNat (48 + n) else Char.ofNat (87 + n)

/-- `json.dumps(..., ensure_ascii=False)` escapes exactly `"` , `\` and the
control characters below `U+0020` (short escapes for the five common ones,
`\u00XX` for the rest); every other character is written literally. -/
def jsonEscapeChar (c : Char) : List Char :=
  if c = '"' then ['\\', '"']
  else if c = '\\' then ['\\', '\\']
  else if c = '\x08' then ['\\', 'b']
  else if c = '\x09' then ['\\', 't']
  else if c = '\x0a' then ['\\', 'n']
  else if c = '\x0c' then ['\\', 'f']
  else if c = '\x0d' then ['\\', 'r']
  else if c.toNat < 32 then
    ['\\', 'u', '0', '0', hexDigitChar (c.toNat / 16), hexDigitChar (c.toNat % 16)]
  else [c]

/-- Escape a string body character by character. -/
def jsonEscape : List Char → List Char
  | [] => []
  | c :: cs => jsonEscapeChar c ++ jsonEscape cs

/-- A JSON string literal: quote, escaped body, quote. -/
def serializeString (s : String) : List Char :=
  '"' :: (jsonEscape s.data ++ ['"'])

/-- The tail of a JSON array after its first element: `json.dumps` separates
elements with `", "` and closes with `]`. -/
def serializeTagsTail : List String → List Char
  | [] => [']']
  | t :: ts => ',' :: ' ' :: (serializeString t ++ serializeTagsTail ts)

/-- A JSON array body after the opening `[`. -/
def serializeTagsInner : List String → List Char
  | [] => [']']
  | t :: ts => serializeString t ++ serializeTagsTail ts

/-- `json.dumps` of the tag list. -/
def serializeTags (ts : List String) : List Char :=
  '[' :: serializeTagsInner ts

/-- `json.dumps(obj, ensure_ascii=False)` for one record dict: keys in
insertion order (`quote`, `author`, `tags`), `": "` and `", "` separators. -/
def serializeRecord (r : Record) : List Char :=
  ("\x7b\"quote\": ").data ++ serializeString r.quote
    ++ (", \"author\": ").data ++ serializeString r.author
    ++ (", \"tags\": ").data ++ serializeTags r.tags ++ ['\x7d']

/-- `save_to_txt` (lines 120-124): the character content written to the file,
one serialized record followed by `"\n"` per input record, in input order. -/
def save_to_txt : List Record → List Char
  | [] => []
  | obj :: rest => serializeRecord obj ++ '\n' :: save_to_txt rest

/-- Value of a hex digit character in any case, `none` otherwise. -/
def hexVal (c : Char) : Option Nat :=
  if '0' ≤ c ∧ c ≤ '9' then some (c.toNat - 48)
  else if 'a' ≤ c ∧ c ≤ 'f' then some (c.toNat - 87)
  else if 'A' ≤ c ∧ c ≤ 'F' then some (c.toNat - 55)
  else none

/-- The single-character JSON escapes. -/
def jsonUnescChar (c : Char) : Option Char :=
  if c = '"' then some '"'
  else if c = '\\' then some '\\'
  else if c = '/' then some '/'
  else if c = 'b' then some '\x08'
  else if c = 't' then some '\x09'
  else if c = 'n' then some '\x0a'
  else if c = 'f' then some '\x0c'
  else if c = 'r' then some '\x0d'
  else none

/-- Read a JSON string body up to and including its closing quote, decoding
escapes; returns the decoded characters and the rest of the input.  This is
the reader side of the round-trip property: line-by-line JSON parsing
restricted to the grammar `save_to_txt` emits. -/
def parseJString : List Char → Option (List Char × List Char)
  | [] => none
  | c :: rest =>
    if c = '"' then some ([], rest)
    else if c = '\\' then
      match rest with
      | [] => none
      | e :: rest2 =>
        if e = 'u' then
          match rest2 with
          | h1 :: h2 :: h3 :: h4 :: rest3 =>
            match hexVal h1, hexVal h2, hexVal h3, hexVal h4 with
            | some a, some b, some c2, some d =>
              match parseJString rest3 with
              | some (s, r) => some (Char.ofNat (((a * 16 + b) * 16 + c2) * 16 + d) :: s, r)
              | none => none
            | _, _, _, _ => none
          | _ => none
        else
          match jsonUnescChar e with
          | some u =>
            match parseJString rest2 with
            | some (s, r) => some (u :: s, r)
            | none => none
          | none => none
    else
      match parseJString rest with
      | some (s, r) => some (c :: s, r)
      | none => none

/-- Read the tail of a serialized tag array: either the closing `]` or a
`", "` separator followed by another string element.  The fuel bounds the
number of elements still to read. -/
def parseTagsTail : Nat → List Char → Option (List (List Char) × List Char)
  | _, ']' :: rest => some ([], rest)
  | fuel + 1, ',' :: ' ' :: '"' :: rest =>
    match parseJString rest with
    | some (t, r) =>
      match parseTagsTail fuel r with
      | some (ts, r2) => some (t :: ts, r2)
      | none => none
    | none => none
  | _, _ => none

/-- Read a serialized tag array body after its opening `[`. -/
def parseTagsAfterBracket (fuel : Nat) : List Char → Option (List (List Char) × List Char)
  | ']' :: rest => some ([], rest)
  | '"' :: rest =>
    match parseJString rest with
    | some (t, r) =>
      match parseTagsTail fuel r with
      | some (ts, r2) => some (t :: ts, r2)
      | none => none
    | none => none
  | _ => none

/-- Consume an exact literal prefix. -/
def expectChars : List Char → List Char → Option (List Char)
  | [], cs => some cs
  | p :: ps, c :: cs => if c = p then expectChars ps cs else none
  | _ :: _, [] => none

/-- Parse one output line back into a record: the fixed key skeleton emitted
by `json.dumps` around the three field values. -/
def parseLine (cs : List Char) : Option Record :=
  match expectChars ("\x7b\"quote\": \"").data cs with
  | none => none
  | some r1 =>
    match parseJString r1 with
    | none => none
    | some (q, r2) =>
      match expectChars (", \"author\": \"").data r2 with
      | none => none
      | some r3 =>
        match parseJString r3 with
        | none => none
        | some (a, r4) =>
          match expectChars (", \"tags\": [").data r4 with
          | none => none
          | some r5 =>
            match parseTagsAfterBracket cs.length r5 with
            | none => none
            | some (ts, r6) =>
              match r6 with
              | ['\x7d'] =>
                some { quote := String.mk q, author := String.mk a, tags := ts.map String.mk }
              | _ => none

/-- Split file content into lines at `'\n'`, newline characters removed, the
way iterating a text file line by line presents them. -/
def splitNl : List Char → List (List Char)
  | [] => []
  | c :: cs =>
    if c = '\n' then [] :: splitNl cs
    else
      match splitNl cs with
      | [] => [[c]]
      | l :: ls => (c :: l) :: ls

/-- Read the whole output back: split into lines and parse each line. -/
def readRecords (content : List Char) : Option (List Record) :=
  (splitNl content).mapM parseLine

/-- Point update of an environment (`os.environ[k] = v`). -/
def envSet (env : String → Option String) (k v : String) : String → Option String :=
  fun q => if q = k then some v else env q

/-- `os.environ.setdefault(k, v)`: set only when the key is absent. -/
def envSetdefault (env : String → Option String) (k v : String) : String → Option String :=
  if (env k).isSome then env else envSet env k v

/-- `_apply_proxy_env` (lines 18-23): return immediately on a falsy proxy
URL; otherwise overwrite `HTTP_PROXY` and `HTTPS_PROXY` and `setdefault`
`NO_PROXY`. -/
def _apply_proxy_env (proxy_url : Option String) (env : String → Option String) :
    String → Option String :=
  if truthy proxy_url = false then env
  else
    envSetdefault
      (envSet (envSet env "HTTP_PROXY" (proxy_url.getD "")) "HTTPS_PROXY" (proxy_url.getD ""))
      "NO_PROXY" "localhost,127.0.0.1"

/-- Proxy resolution in `__main__` (line 182):
`os.environ.get("PROXY_URL") or os.environ.get("HTTP_PROXY") or
os.environ.get("HTTPS_PROXY")`. -/
def main_proxy_env (env : String → Option String) : Option String :=
  pyOr (pyOr (env "PROXY_URL") (env "HTTP_PROXY")) (env "HTTPS_PROXY")

/-- Whether the run returned normally to the caller (as opposed to an
exception propagating out of the function). -/
def resultReturned (o : Outcome) : Bool :=
  match o.result with
  | .ok _ => true
  | .error _ => false

/-- Concrete environment: every URL raises an exception that is not a
`TimeoutException` (e.g. a `WebDriverException` from `driver.get`). -/
def crashSite : String → PageResult :=
  fun _ => PageResult.raiseOther

/-- Concrete two-page site ending in a page with no next-page element. -/
def siteTwoPages : String → PageResult := fun u =>
  if u = "https://quotes.toscrape.com/" then
    .loaded { containers := [{ text := some "q1", author := some "a1", tags := ["t1", "t2"] },
                             { text := some "q2", author := some "a2", tags := [] }],
              nextLink := some { href := some "https://quotes.toscrape.com/page/2/",
                                 dataHref := none } }
  else if u = "https://quotes.toscrape.com/page/2/" then
    .loaded { containers := [{ text := some "q3", author := some "a3", tags := ["t3"] }],
              nextLink := none }
  else .raiseOther

/-- Concrete site whose second page times out under the bounded wait. -/
def siteTimeoutOnSecond : String → PageResult := fun u =>
  if u = "https://quotes.toscrape.com/" then
    .loaded { containers := [{ text := some "q1", author := some "a1", tags := ["t1"] }],
              nextLink := some { href := some "https://quotes.toscrape.com/page/2/",
                                 dataHref := none } }
  else .timeout

/-- Concrete environment with both `PROXY_URL` and `HTTP_PROXY` set. -/
def envA : String → Option String := fun k =>
  if k = "PROXY_URL" then some "http://p1:3128"
  else if k = "HTTP_PROXY" then some "http://p2:3128" else none

/-- Concrete environment with `HTTP_PROXY` and `HTTPS_PROXY` set only. -/
def envB : String → Option String := fun k =>
  if k = "HTTP_PROXY" then some "http://p2:3128"
  else if k = "HTTPS_PROXY" then some "http://p3:3128" else none

/-- Concrete environment with `HTTPS_PROXY` set only. -/
def envC : String → Option String := fun k =>
  if k = "HTTPS_PROXY" then some "http://p3:3128" else none

/-- Concrete empty environment. -/
def envEmpty : String → Option String := fun _ => none

/-- Concrete environment in which `NO_PROXY` is already set. -/
def envNoProxySet : String → Option String := fun k =>
  if k = "NO_PROXY" then some "corp.internal" else none

/-! ## General lemmas about the pagination loop -/

theorem crawlPayload_prependAcc (acc : List Record)
    (r : Except (PyExn × List Record) (List Record)) :
    crawlPayload (prependAcc acc r) = acc ++ crawlPayload r := by
  cases r with
  | ok l => rfl
  | error e => cases e; rfl

theorem crawlBody_append (site : String → PageResult) :
    ∀ (fuel : Nat) (url : String) (acc : List Record),
      crawlBody site fuel url acc = (crawlBody site fuel url []).map (prependAcc acc) := by
  intro fuel
  induction fuel with
  | zero => intro url acc; rfl
  | succ n ih =>
    intro url acc
    cases hs : site url with
    | timeout => simp [crawlBody, hs, prependAcc]
    | raiseOther => simp [crawlBody, hs, prependAcc]
    | loaded p =>
      cases hn : p.nextLink with
      | none => simp [crawlBody, hs, hn, prependAcc]
      | some link =>
        simp only [crawlBody, hs, hn]
        rw [ih (resolveNextUrl link url) (acc ++ extractPage p.containers),
          ih (resolveNextUrl link url) ([] ++ extractPage p.containers)]
        cases crawlBody site n (resolveNextUrl link url) [] with
        | none => rfl
        | some r =>
          cases r with
          | ok l => simp [prependAcc]
          | error e => cases e; simp [prependAcc]

theorem crawlBody_payload (site : String → PageResult) :
    ∀ (fuel : Nat) (url : String) (r : Except (PyExn × List Record) (List Record)),
      crawlBody site fuel url [] = some r →
      crawlPayload r = collectedRecords site fuel url := by
  intro fuel
  induction fuel with
  | zero => intro url r h; exact absurd h (by simp [crawlBody])
  | succ n ih =>
    intro url r h
    cases hs : site url with
    | timeout =>
      rw [crawlBody, hs] at h
      cases h
      simp [crawlPayload, collectedRecords, visitedPages, hs]
    | raiseOther =>
      rw [crawlBody, hs] at h
      cases h
      simp [crawlPayload, collectedRecords, visitedPages, hs]
    | loaded p =>
      cases hn : p.nextLink with
      | none =>
        rw [crawlBody, hs] at h
        simp only [hn] at h
        cases h
        simp [crawlPayload, collectedRecords, visitedPages, hs, hn, extractPage]
      | some link =>
        rw [crawlBody, hs] at h
        simp only [hn] at h
        rw [crawlBody_append] at h
        cases hb : crawlBody site n (resolveNextUrl link url) [] with
        | none => rw [hb] at h; exact absurd h (by simp)
        | some r0 =>
          rw [hb] at h
          simp only [Option.map_some'] at h
          cases h
          rw [crawlPayload_prependAcc]
          rw [ih (resolveNextUrl link url) r0 hb]
          simp [collectedRecords, visitedPages, hs, hn]

theorem extractPage_middle (pre : List Container) (c : Container) (post : List Container) :
    extractPage (pre ++ c :: post) =
      extractPage pre ++ (extractContainer c).toList ++ extractPage post := by
  simp only [extractPage, List.filterMap_append, List.filterMap_cons]
  cases extractContainer c <;> simp

/-! ## Claim theorems: pagination loop -/

/-- C1: every run of `scrape_all_pages` that returns a record list returns the
page-by-page concatenation, in visit order, of each visited page's extracted
records — so all records of page k precede all records of page k+1 — and
within a page extraction keeps the containers' document order: the records
around any given container are exactly those of the containers before and
after it. -/
theorem C1_order_preserved (site : String → PageResult) (fuel : Nat) (url : String)
    (out : Outcome) (items : List Record)
    (hrun : scrape_all_pages site fuel url = some out)
    (hret : out.result = .ok items) :
    items = (visitedPages site fuel url).flatMap (fun p => extractPage p.containers) ∧
    ∀ (pre : List Container) (c : Container) (post : List Container),
      extractPage (pre ++ c :: post) =
        extractPage pre ++ (extractContainer c).toList ++ extractPage post := by
  refine ⟨?_, fun pre c post => extractPage_middle pre c post⟩
  unfold scrape_all_pages at hrun
  cases hb : crawlBody site fuel url [] with
  | none => rw [hb] at hrun; exact absurd hrun (by simp)
  | some r =>
    rw [hb] at hrun
    have hp := crawlBody_payload site fuel url r hb
    cases r with
    | ok l =>
      simp only [Option.some.injEq] at hrun
      rw [← hrun] at hret
      simp only [Except.ok.injEq] at hret
      rw [← hret]
      simpa [crawlPayload, collectedRecords] using hp
    | error e =>
      obtain ⟨e, l⟩ := e
      cases e with
      | timeoutExc =>
        simp only [Option.some.injEq] at hrun
        rw [← hrun] at hret
        simp only [Except.ok.injEq] at hret
        rw [← hret]
        simpa [crawlPayload, collectedRecords] using hp
      | otherExc =>
        simp only [Option.some.injEq] at hrun
        rw [← hrun] at hret
        exact absurd hret (by simp)

/-- C2: if the bounded wait raises `TimeoutException` at some page of the
crawl, `scrape_all_pages` returns normally (the exception is not raised to
the caller), the returned records are exactly the concatenation of the
records of the pages fully processed before the failing one, the session is
released; and if the very first page times out, no page was processed, so
the returned list is empty. -/
theorem C2_timeout_partial_result (site : String → PageResult) (fuel : Nat) (url : String)
    (acc : List Record)
    (h : crawlBody site fuel url [] = some (.error (.timeoutExc, acc))) :
    scrape_all_pages site fuel url =
      some { result := .ok ((visitedPages site fuel url).flatMap fun p => extractPage p.containers),
             quitCount := 1 } ∧
    (site url = .timeout → visitedPages site fuel url = []) := by
  constructor
  · have hp := crawlBody_payload site fuel url _ h
    unfold scrape_all_pages
    rw [h]
    simp only [crawlPayload] at hp
    rw [hp]
    rfl
  · intro ht
    cases fuel with
    | zero => rfl
    | succ n => simp [visitedPages, ht]

/-- C3 (amended): whatever exception ends the pagination loop, the session is
released exactly once before the function completes; when the exception is
the bounded wait's `TimeoutException` the accumulator collected up to the
failure point — empty when no page loaded — is still returned to the caller,
while an exception of any other type propagates to the caller after the
session release, so the accumulator is not returned. -/
theorem C3_exception_paths (site : String → PageResult) (fuel : Nat) (url : String)
    (e : PyExn) (acc : List Record)
    (h : crawlBody site fuel url [] = some (.error (e, acc))) :
    (∃ out, scrape_all_pages site fuel url = some out ∧ out.quitCount = 1) ∧
    (e = .timeoutExc →
      acc = ((visitedPages site fuel url).flatMap fun p => extractPage p.containers) ∧
      scrape_all_pages site fuel url = some { result := .ok acc, quitCount := 1 }) ∧
    (e = .otherExc →
      scrape_all_pages site fuel url =
        some { result := .error .otherExc, quitCount := 1 }) := by
  refine ⟨?_, ?_, ?_⟩
  · cases e with
    | timeoutExc =>
      refine ⟨{ result := .ok acc, quitCount := 1 }, ?_, rfl⟩
      unfold scrape_all_pages; rw [h]
    | otherExc =>
      refine ⟨{ result := .error .otherExc, quitCount := 1 }, ?_, rfl⟩
      unfold scrape_all_pages; rw [h]
  · intro he
    subst he
    have hp := crawlBody_payload site fuel url _ h
    simp only [crawlPayload] at hp
    refine ⟨by simpa [collectedRecords] using hp, ?_⟩
    unfold scrape_all_pages; rw [h]
  · intro he; subst he; unfold scrape_all_pages; rw [h]

/-- C3 counterexample: on a run whose first iteration raises an exception
that is not a `TimeoutException`, the exception propagates to the caller —
`scrape_all_pages` does not return the accumulated record list (the claim
says every exception type still leads to the accumulator being returned). -/
theorem C3_counterexample :
    scrape_all_pages crashSite 1 "https://quotes.toscrape.com/" =
      some { result := .error .otherExc, quitCount := 1 } ∧
    (scrape_all_pages crashSite 1 "https://quotes.toscrape.com/").map resultReturned =
      some false := by
  constructor <;> rfl

/-- C4: a container whose author sub-element is absent yields no record, and
extracting a page that contains it yields exactly the extraction of the
surrounding containers — the per-container failure removes only that
container and aborts neither the rest of the page nor the crawl. -/
theorem C4_missing_author_skipped (pre post : List Container) (c : Container)
    (h : c.author = none) :
    extractContainer c = none ∧
    extractPage (pre ++ c :: post) = extractPage pre ++ extractPage post := by
  have hc : extractContainer c = none := by
    cases ht : c.text <;> simp [extractContainer, ht, h]
  refine ⟨hc, ?_⟩
  simp [extractPage, List.filterMap_append, List.filterMap_cons, hc]

/-- C5: a well-formed page — every container has its text and author
sub-elements — extracts to exactly one record per container, in document
order, each carrying the container's quote text, author text and ordered
tag list. -/
theorem C5_all_valid_extracted (cs : List Container)
    (h : ∀ c ∈ cs, c.text ≠ none ∧ c.author ≠ none) :
    (extractPage cs).length = cs.length ∧
    extractPage cs = cs.map (fun c =>
      { quote := c.text.getD "", author := c.author.getD "", tags := c.tags }) := by
  have hmap : extractPage cs = cs.map (fun c =>
      { quote := c.text.getD "", author := c.author.getD "", tags := c.tags }) := by
    induction cs with
    | nil => rfl
    | cons c cs ih =>
      obtain ⟨ht, ha⟩ := h c (by simp)
      obtain ⟨t, ht⟩ := Option.ne_none_iff_exists'.mp ht
      obtain ⟨a, ha⟩ := Option.ne_none_iff_exists'.mp ha
      have ihh := ih (fun c hc => h c (by simp [hc]))
      simp only [extractPage, List.filterMap_cons] at ihh ⊢
      simp [extractContainer, ht, ha, ihh]
  exact ⟨by rw [hmap]; simp, hmap⟩

/-- C6: on a page with no next-page element the loop breaks after processing
that page: from any accumulator the loop returns the accumulator extended by
exactly that page's records, and a whole run ending there returns exactly
the visited pages' records with the session released. -/
theorem C6_no_next_terminates (site : String → PageResult) (fuel : Nat) (url : String)
    (p : Page) (acc : List Record)
    (h1 : site url = .loaded p) (h2 : p.nextLink = none) :
    crawlBody site (fuel + 1) url acc = some (.ok (acc ++ extractPage p.containers)) ∧
    scrape_all_pages site (fuel + 1) url =
      some { result := .ok ((visitedPages site (fuel + 1) url).flatMap
               fun q => extractPage q.containers),
             quitCount := 1 } := by
  have hb : ∀ a : List Record,
      crawlBody site (fuel + 1) url a = some (.ok (a ++ extractPage p.containers)) := by
    intro a
    rw [crawlBody, h1]
    simp [h2]
  refine ⟨hb acc, ?_⟩
  unfold scrape_all_pages
  rw [hb []]
  simp [visitedPages, h1, h2]

/-! ## Claim theorems: next-URL heuristic and proxy environment -/

/-- C8: the new crawl cursor is the `href` attribute whenever that attribute
is non-empty; when `href` is empty or absent the `data-href` attribute is
used if it yields a target; only when neither does is the cursor synthesized
as the current URL with trailing slashes stripped plus `"/page/2/"`. -/
theorem C8_next_cursor (link : NextLink) (current_url : String) :
    (truthy link.href = true → resolveNextUrl link current_url = link.href.getD "") ∧
    (truthy link.href = false → truthy link.dataHref = true →
      resolveNextUrl link current_url = link.dataHref.getD "") ∧
    (truthy link.href = false → truthy link.dataHref = false →
      resolveNextUrl link current_url = rstripSlash current_url ++ "/page/2/") := by
  refine ⟨fun h => ?_, fun h1 h2 => ?_, fun h1 h2 => ?_⟩
  · simp [resolveNextUrl, h]
  · simp [resolveNextUrl, pyOr, h1, h2]
  · simp [resolveNextUrl, pyOr, h1, h2]

/-- C9: the proxy URL handed to the crawl is taken from `PROXY_URL` first,
then `HTTP_PROXY`, then `HTTPS_PROXY`; the first variable with a non-empty
value wins, and when all three are unset no proxy results. -/
theorem C9_proxy_precedence (env : String → Option String) :
    (truthy (env "PROXY_URL") = true → main_proxy_env env = env "PROXY_URL") ∧
    (truthy (env "PROXY_URL") = false → truthy (env "HTTP_PROXY") = true →
      main_proxy_env env = env "HTTP_PROXY") ∧
    (truthy (env "PROXY_URL") = false → truthy (env "HTTP_PROXY") = false →
      truthy (env "HTTPS_PROXY") = true → main_proxy_env env = env "HTTPS_PROXY") ∧
    (env "PROXY_URL" = none → env "HTTP_PROXY" = none → env "HTTPS_PROXY" = none →
      main_proxy_env env = none) := by
  refine ⟨fun h1 => ?_, fun h1 h2 => ?_, fun h1 h2 h3 => ?_, fun h1 h2 h3 => ?_⟩
  · simp [main_proxy_env, pyOr, h1]
  · simp [main_proxy_env, pyOr, h1, h2]
  · simp [main_proxy_env, pyOr, h1, h2]
  · simp [main_proxy_env, pyOr, h1, h2, h3, truthy]

/-- C10: with a non-empty proxy URL, session construction overwrites
`HTTP_PROXY` and `HTTPS_PROXY` with it unconditionally, sets `NO_PROXY` to
`"localhost,127.0.0.1"` only when `NO_PROXY` was unset, leaves an existing
`NO_PROXY` value and every other variable unchanged; with an absent or empty
proxy URL the environment is untouched. -/
theorem C10_proxy_env_effect (p : String) (env : String → Option String) (hp : p ≠ "") :
    _apply_proxy_env (some p) env "HTTP_PROXY" = some p ∧
    _apply_proxy_env (some p) env "HTTPS_PROXY" = some p ∧
    (env "NO_PROXY" = none →
      _apply_proxy_env (some p) env "NO_PROXY" = some "localhost,127.0.0.1") ∧
    (∀ v, env "NO_PROXY" = some v → _apply_proxy_env (some p) env "NO_PROXY" = some v) ∧
    (∀ k, k ≠ "HTTP_PROXY" → k ≠ "HTTPS_PROXY" → k ≠ "NO_PROXY" →
      _apply_proxy_env (some p) env k = env k) ∧
    _apply_proxy_env none env = env ∧
    _apply_proxy_env (some "") env = env := by
  have ht : truthy (some p) = true := by simp [truthy, hp]
  have e1 : ("HTTP_PROXY" : String) ≠ "NO_PROXY" := by decide
  have e2 : ("HTTP_PROXY" : String) ≠ "HTTPS_PROXY" := by decide
  have e3 : ("HTTPS_PROXY" : String) ≠ "NO_PROXY" := by decide
  have happ : _apply_proxy_env (some p) env =
      envSetdefault (envSet (envSet env "HTTP_PROXY" p) "HTTPS_PROXY" p)
        "NO_PROXY" "localhost,127.0.0.1" := by
    simp [_apply_proxy_env, ht]
  refine ⟨?_, ?_, fun hn => ?_, fun v hn => ?_, fun k k1 k2 k3 => ?_, rfl, rfl⟩
  · rw [happ]; unfold envSetdefault; split <;> simp [envSet, e1, e2]
  · rw [happ]; unfold envSetdefault; split <;> simp [envSet, e3]
  · rw [happ]; simp [envSetdefault, envSet, hn]
  · rw [happ]; simp [envSetdefault, envSet, hn]
  · rw [happ]; unfold envSetdefault; split <;> simp [envSet, k1, k2, k3]

/-! ## Lemmas for the serialization round trip -/

theorem string_mk_data (s : String) : String.mk s.data = s := by
  cases s
  rfl

theorem hexVal_hexDigitChar : ∀ m, m < 16 → hexVal (hexDigitChar m) = some m := by decide

theorem parseJString_inverse : ∀ (s rest : List Char),
    parseJString (jsonEscape s ++ '"' :: rest) = some (s, rest) := by
  intro s
  induction s with
  | nil =>
    intro rest
    show parseJString ('"' :: rest) = some ([], rest)
    rw [parseJString.eq_def]
    simp
  | cons c s ih =>
    intro rest
    show parseJString ((jsonEscapeChar c ++ jsonEscape s) ++ '"' :: rest) = _
    rw [List.append_assoc]
    unfold jsonEscapeChar
    split_ifs with h1 h2 h3 h4 h5 h6 h7 h8
    · subst h1; rw [parseJString.eq_def]; simp [jsonUnescChar, ih]
    · subst h2; rw [parseJString.eq_def]; simp [jsonUnescChar, ih]
    · subst h3; rw [parseJString.eq_def]; simp [jsonUnescChar, ih]
    · subst h4; rw [parseJString.eq_def]; simp [jsonUnescChar, ih]
    · subst h5; rw [parseJString.eq_def]; simp [jsonUnescChar, ih]
    · subst h6; rw [parseJString.eq_def]; simp [jsonUnescChar, ih]
    · subst h7; rw [parseJString.eq_def]; simp [jsonUnescChar, ih]
    · have hv1 : hexVal '0' = some 0 := by decide
      have hv2 : hexVal (hexDigitChar (c.toNat / 16)) = some (c.toNat / 16) :=
        hexVal_hexDigitChar _ (by omega)
      have hv3 : hexVal (hexDigitChar (c.toNat % 16)) = some (c.toNat % 16) :=
        hexVal_hexDigitChar _ (by omega)
      rw [parseJString.eq_def]
      simp [hv1, hv2, hv3, ih]
      have harith : c.toNat / 16 * 16 + c.toNat % 16 = c.toNat := by omega
      rw [harith, Char.ofNat_toNat]
    · rw [parseJString.eq_def]
      simp [h1, h2, ih]

theorem expectChars_inverse : ∀ (p cs : List Char), expectChars p (p ++ cs) = some cs := by
  intro p
  induction p with
  | nil => intro cs; rfl
  | cons a p ih => intro cs; simp [expectChars, ih]

theorem parseTagsTail_inverse : ∀ (ts : List String) (fuel : Nat) (rest : List Char),
    ts.length ≤ fuel →
    parseTagsTail fuel (serializeTagsTail ts ++ rest) = some (ts.map String.data, rest) := by
  intro ts
  induction ts with
  | nil =>
    intro fuel rest _
    show parseTagsTail fuel (']' :: rest) = some ([], rest)
    rw [parseTagsTail.eq_def]
    cases fuel <;> simp
  | cons t ts ih =>
    intro fuel rest h
    cases fuel with
    | zero => simp at h
    | succ f =>
      show parseTagsTail (f + 1)
        ((',' :: ' ' :: (serializeString t ++ serializeTagsTail ts)) ++ rest) = _
      rw [parseTagsTail.eq_def]
      simp only [serializeString, List.cons_append, List.append_assoc,
        List.singleton_append]
      have h2 : ts.length ≤ f := by simp at h; omega
      simp only [parseJString_inverse, List.nil_append]
      rw [ih f rest h2]
      simp

theorem parseTagsAfterBracket_inverse (ts : List String) (fuel : Nat) (rest : List Char)
    (h : ts.length ≤ fuel) :
    parseTagsAfterBracket fuel (serializeTagsInner ts ++ rest) =
      some (ts.map String.data, rest) := by
  cases ts with
  | nil =>
    show parseTagsAfterBracket fuel (']' :: rest) = some ([], rest)
    rw [parseTagsAfterBracket.eq_def]
    simp
  | cons t ts =>
    show parseTagsAfterBracket fuel ((serializeString t ++ serializeTagsTail ts) ++ rest) = _
    rw [parseTagsAfterBracket.eq_def]
    simp only [serializeString, List.cons_append, List.append_assoc, List.singleton_append]
    have h2 : ts.length ≤ fuel := by simp at h; omega
    simp only [parseJString_inverse, List.nil_append]
    rw [parseTagsTail_inverse ts fuel rest h2]
    simp

theorem serializeTagsTail_length (ts : List String) :
    ts.length ≤ (serializeTagsTail ts).length := by
  induction ts with
  | nil => simp [serializeTagsTail]
  | cons t ts ih => simp [serializeTagsTail, serializeString]; omega

theorem serializeTagsInner_length (ts : List String) :
    ts.length ≤ (serializeTagsInner ts).length := by
  cases ts with
  | nil => simp [serializeTagsInner]
  | cons t ts =>
    have := serializeTagsTail_length ts
    simp [serializeTagsInner, serializeString]
    omega

theorem serializeRecord_tags_length (r : Record) :
    r.tags.length ≤ (serializeRecord r).length := by
  have := serializeTagsInner_length r.tags
  simp [serializeRecord, serializeTags, serializeString]
  omega

theorem serializeRecord_shape (r : Record) :
    serializeRecord r =
      ("\x7b\"quote\": \"").data ++ (jsonEscape r.quote.data ++ '"' ::
        ((", \"author\": \"").data ++ (jsonEscape r.author.data ++ '"' ::
          ((", \"tags\": [").data ++ (serializeTagsInner r.tags ++ ['\x7d']))))) := by
  have p1 : ("\x7b\"quote\": \"").data = ("\x7b\"quote\": ").data ++ ['"'] := rfl
  have p2 : (", \"author\": \"").data = (", \"author\": ").data ++ ['"'] := rfl
  have p3 : (", \"tags\": [").data = (", \"tags\": ").data ++ ['['] := rfl
  rw [p1, p2, p3]
  simp [serializeRecord, serializeString, serializeTags]

theorem parseLine_inverse (r : Record) : parseLine (serializeRecord r) = some r := by
  unfold parseLine
  rw [serializeRecord_shape r]
  rw [expectChars_inverse]
  simp only [parseJString_inverse]
  rw [expectChars_inverse]
  simp only [parseJString_inverse]
  rw [expectChars_inverse]
  rw [← serializeRecord_shape r]
  simp only [parseTagsAfterBracket_inverse r.tags ((serializeRecord r).length) ['\x7d']
    (serializeRecord_tags_length r)]
  have hmap : List.map (String.mk ∘ String.data) r.tags = r.tags := by
    have hfun : (String.mk ∘ String.data) = fun s => s := funext string_mk_data
    rw [hfun, List.map_id']
  simp [string_mk_data, List.map_map, hmap]

theorem hexDigitChar_ne_newline : ∀ m, m < 16 → hexDigitChar m ≠ '\n' := by decide

theorem newline_notin_jsonEscapeChar (c : Char) : '\n' ∉ jsonEscapeChar c := by
  unfold jsonEscapeChar
  split_ifs with h1 h2 h3 h4 h5 h6 h7 h8
  · decide
  · decide
  · decide
  · decide
  · decide
  · decide
  · decide
  · intro hm
    simp only [List.mem_cons, List.not_mem_nil, or_false] at hm
    rcases hm with h | h | h | h | h | h
    · exact absurd h (by decide)
    · exact absurd h (by decide)
    · exact absurd h (by decide)
    · exact absurd h (by decide)
    · exact hexDigitChar_ne_newline (c.toNat / 16) (by omega) h.symm
    · exact hexDigitChar_ne_newline (c.toNat % 16) (by omega) h.symm
  · intro hm
    simp only [List.mem_singleton] at hm
    exact h5 hm.symm

theorem newline_notin_jsonEscape (s : List Char) : '\n' ∉ jsonEscape s := by
  induction s with
  | nil => simp [jsonEscape]
  | cons c s ih =>
    simp only [jsonEscape, List.mem_append]
    intro h
    rcases h with h | h
    · exact newline_notin_jsonEscapeChar c h
    · exact ih h

theorem newline_notin_serializeString (s : String) : '\n' ∉ serializeString s := by
  simp only [serializeString, List.mem_cons, List.mem_append, List.mem_singleton]
  intro h
  rcases h with h | h | h
  · exact absurd h (by decide)
  · exact newline_notin_jsonEscape s.data h
  · exact absurd h (by decide)

theorem newline_notin_serializeTagsTail (ts : List String) : '\n' ∉ serializeTagsTail ts := by
  induction ts with
  | nil => decide
  | cons t ts ih =>
    simp only [serializeTagsTail, List.mem_cons, List.mem_append]
    intro h
    rcases h with h | h | h | h
    · exact absurd h (by decide)
    · exact absurd h (by decide)
    · exact newline_notin_serializeString t h
    · exact ih h

theorem newline_notin_serializeTagsInner (ts : List String) : '\n' ∉ serializeTagsInner ts := by
  cases ts with
  | nil => decide
  | cons t ts =>
    simp only [serializeTagsInner, List.mem_append]
    intro h
    rcases h with h | h
    · exact newline_notin_serializeString t h
    · exact newline_notin_serializeTagsTail ts h

theorem newline_notin_serializeRecord (r : Record) : '\n' ∉ serializeRecord r := by
  simp only [serializeRecord, serializeTags, List.mem_append, List.mem_cons,
    List.mem_singleton]
  intro h
  rcases h with ((((((h | h) | h) | h) | h) | h) | h)
  · exact absurd h (by decide)
  · exact newline_notin_serializeString r.quote h
  · exact absurd h (by decide)
  · exact newline_notin_serializeString r.author h
  · exact absurd h (by decide)
  · rcases h with h | h
    · exact absurd h (by decide)
    · exact newline_notin_serializeTagsInner r.tags h
  · exact absurd h (by decide)

theorem splitNl_append (line rest : List Char) (h : '\n' ∉ line) :
    splitNl (line ++ '\n' :: rest) = line :: splitNl rest := by
  induction line with
  | nil => simp [splitNl]
  | cons c cs ih =>
    have hc : ¬c = '\n' := fun e => h (by simp [e])
    have ih2 := ih (fun hm => h (by simp [hm]))
    simp only [List.cons_append, splitNl, hc, if_false, List.append_eq, ih2]

/-! ## Claim theorem: serialization round trip -/

/-- C7: writing any record sequence with `save_to_txt` — tag lists with
unicode content and empty tag lists included — and then reading the output
line by line, parsing each line as one serialized record, recovers a record
sequence field-for-field equal to the input, in the same order. -/
theorem C7_round_trip (items : List Record) :
    readRecords (save_to_txt items) = some items := by
  induction items with
  | nil => rfl
  | cons r rs ih =>
    unfold readRecords at ih ⊢
    show (splitNl (serializeRecord r ++ '\n' :: save_to_txt rs)).mapM parseLine = _
    rw [splitNl_append _ _ (newline_notin_serializeRecord r)]
    rw [List.mapM_cons]
    rw [parseLine_inverse r, ih]
    rfl

/-! ## Witnesses: the claim theorems applied at concrete inputs -/

theorem C1_witness :
    ([{ quote := "q1", author := "a1", tags := ["t1", "t2"] },
      { quote := "q2", author := "a2", tags := [] },
      { quote := "q3", author := "a3", tags := ["t3"] }] : List Record) =
      (visitedPages siteTwoPages 3 "https://quotes.toscrape.com/").flatMap
        (fun p => extractPage p.containers) ∧
    extractPage ([{ text := some "c1", author := some "d1", tags := [] }] ++
        { text := none, author := none, tags := [] } ::
        [{ text := some "c2", author := some "d2", tags := [] }]) =
      extractPage [{ text := some "c1", author := some "d1", tags := [] }] ++
        (extractContainer { text := none, author := none, tags := [] }).toList ++
        extractPage [{ text := some "c2", author := some "d2", tags := [] }] :=
  ⟨(C1_order_preserved siteTwoPages 3 "https://quotes.toscrape.com/"
      { result := .ok [{ quote := "q1", author := "a1", tags := ["t1", "t2"] },
                       { quote := "q2", author := "a2", tags := [] },
                       { quote := "q3", author := "a3", tags := ["t3"] }], quitCount := 1 }
      [{ quote := "q1", author := "a1", tags := ["t1", "t2"] },
       { quote := "q2", author := "a2", tags := [] },
       { quote := "q3", author := "a3", tags := ["t3"] }] (by decide) rfl).1,
   (C1_order_preserved siteTwoPages 3 "https://quotes.toscrape.com/"
      { result := .ok [{ quote := "q1", author := "a1", tags := ["t1", "t2"] },
                       { quote := "q2", author := "a2", tags := [] },
                       { quote := "q3", author := "a3", tags := ["t3"] }], quitCount := 1 }
      [{ quote := "q1", author := "a1", tags := ["t1", "t2"] },
       { quote := "q2", author := "a2", tags := [] },
       { quote := "q3", author := "a3", tags := ["t3"] }] (by decide) rfl).2
     [{ text := some "c1", author := some "d1", tags := [] }]
     { text := none, author := none, tags := [] }
     [{ text := some "c2", author := some "d2", tags := [] }]⟩

theorem C2_witness :
    scrape_all_pages siteTimeoutOnSecond 2 "https://quotes.toscrape.com/" =
      some { result := .ok [{ quote := "q1", author := "a1", tags := ["t1"] }],
             quitCount := 1 } :=
  (C2_timeout_partial_result siteTimeoutOnSecond 2 "https://quotes.toscrape.com/"
    [{ quote := "q1", author := "a1", tags := ["t1"] }] (by decide)).1

theorem C3_witness :
    scrape_all_pages crashSite 1 "https://quotes.toscrape.com/" =
      some { result := .error .otherExc, quitCount := 1 } ∧
    ([{ quote := "q1", author := "a1", tags := ["t1"] }] : List Record) =
      ((visitedPages siteTimeoutOnSecond 2 "https://quotes.toscrape.com/").flatMap
        fun p => extractPage p.containers) ∧
    scrape_all_pages siteTimeoutOnSecond 2 "https://quotes.toscrape.com/" =
      some { result := .ok [{ quote := "q1", author := "a1", tags := ["t1"] }],
             quitCount := 1 } :=
  ⟨(C3_exception_paths crashSite 1 "https://quotes.toscrape.com/" .otherExc [] rfl).2.2 rfl,
   ((C3_exception_paths siteTimeoutOnSecond 2 "https://quotes.toscrape.com/" .timeoutExc
      [{ quote := "q1", author := "a1", tags := ["t1"] }] (by decide)).2.1 rfl).1,
   ((C3_exception_paths siteTimeoutOnSecond 2 "https://quotes.toscrape.com/" .timeoutExc
      [{ quote := "q1", author := "a1", tags := ["t1"] }] (by decide)).2.1 rfl).2⟩

theorem C4_witness :
    extractContainer { text := some "Q", author := none, tags := ["x"] } = none ∧
    extractPage ([{ text := some "q1", author := some "a1", tags := [] }] ++
        { text := some "Q", author := none, tags := ["x"] } ::
        [{ text := some "q2", author := some "a2", tags := ["t"] }]) =
      extractPage [{ text := some "q1", author := some "a1", tags := [] }] ++
        extractPage [{ text := some "q2", author := some "a2", tags := ["t"] }] :=
  C4_missing_author_skipped
    [{ text := some "q1", author := some "a1", tags := [] }]
    [{ text := some "q2", author := some "a2", tags := ["t"] }]
    { text := some "Q", author := none, tags := ["x"] } rfl

theorem C5_witness :
    (extractPage [{ text := some "q1", author := some "a1", tags := ["t"] },
                  { text := some "q2", author := some "a2", tags := [] }]).length =
      ([{ text := some "q1", author := some "a1", tags := ["t"] },
        { text := some "q2", author := some "a2", tags := [] }] : List Container).length ∧
    extractPage [{ text := some "q1", author := some "a1", tags := ["t"] },
                 { text := some "q2", author := some "a2", tags := [] }] =
      [{ quote := "q1", author := "a1", tags := ["t"] },
       { quote := "q2", author := "a2", tags := [] }] :=
  C5_all_valid_extracted
    [{ text := some "q1", author := some "a1", tags := ["t"] },
     { text := some "q2", author := some "a2", tags := [] }] (by decide)

theorem C6_witness :
    crawlBody siteTwoPages 1 "https://quotes.toscrape.com/page/2/"
        [{ quote := "q0", author := "a0", tags := [] }] =
      some (.ok ([{ quote := "q0", author := "a0", tags := [] }] ++
        extractPage [{ text := some "q3", author := some "a3", tags := ["t3"] }])) ∧
    scrape_all_pages siteTwoPages 1 "https://quotes.toscrape.com/page/2/" =
      some { result := .ok ((visitedPages siteTwoPages 1
               "https://quotes.toscrape.com/page/2/").flatMap
               fun q => extractPage q.containers),
             quitCount := 1 } :=
  C6_no_next_terminates siteTwoPages 0 "https://quotes.toscrape.com/page/2/"
    { containers := [{ text := some "q3", author := some "a3", tags := ["t3"] }],
      nextLink := none }
    [{ quote := "q0", author := "a0", tags := [] }] (by decide) rfl

theorem C8_witness :
    resolveNextUrl { href := some "https://quotes.toscrape.com/page/2/", dataHref := none }
        "https://quotes.toscrape.com/" = "https://quotes.toscrape.com/page/2/" ∧
    resolveNextUrl { href := some "", dataHref := some "https://alt.example/p2" }
        "https://quotes.toscrape.com/" = "https://alt.example/p2" ∧
    resolveNextUrl { href := some "", dataHref := none } "https://quotes.toscrape.com//" =
      rstripSlash "https://quotes.toscrape.com//" ++ "/page/2/" :=
  ⟨(C8_next_cursor { href := some "https://quotes.toscrape.com/page/2/", dataHref := none }
      "https://quotes.toscrape.com/").1 (by decide),
   (C8_next_cursor { href := some "", dataHref := some "https://alt.example/p2" }
      "https://quotes.toscrape.com/").2.1 (by decide) (by decide),
   (C8_next_cursor { href := some "", dataHref := none }
      "https://quotes.toscrape.com//").2.2 (by decide) (by decide)⟩

theorem C9_witness :
    main_proxy_env envA = envA "PROXY_URL" ∧
    main_proxy_env envB = envB "HTTP_PROXY" ∧
    main_proxy_env envC = envC "HTTPS_PROXY" ∧
    main_proxy_env envEmpty = none :=
  ⟨(C9_proxy_precedence envA).1 (by decide),
   (C9_proxy_precedence envB).2.1 (by decide) (by decide),
   (C9_proxy_precedence envC).2.2.1 (by decide) (by decide) (by decide),
   (C9_proxy_precedence envEmpty).2.2.2 rfl rfl rfl⟩

theorem C10_witness :
    _apply_proxy_env (some "http://proxy:8080") envEmpty "HTTP_PROXY" =
      some "http://proxy:8080" ∧
    _apply_proxy_env (some "http://proxy:8080") envEmpty "HTTPS_PROXY" =
      some "http://proxy:8080" ∧
    _apply_proxy_env (some "http://proxy:8080") envEmpty "NO_PROXY" =
      some "localhost,127.0.0.1" ∧
    _apply_proxy_env (some "http://proxy:8080") envNoProxySet "NO_PROXY" =
      some "corp.internal" ∧
    _apply_proxy_env (some "http://proxy:8080") envEmpty "PATH" = envEmpty "PATH" ∧
    _apply_proxy_env none envEmpty = envEmpty ∧
    _apply_proxy_env (some "") envNoProxySet = envNoProxySet :=
  ⟨(C10_proxy_env_effect "http://proxy:8080" envEmpty (by decide)).1,
   (C10_proxy_env_effect "http://proxy:8080" envEmpty (by decide)).2.1,
   (C10_proxy_env_effect "http://proxy:8080" envEmpty (by decide)).2.2.1 rfl,
   (C10_proxy_env_effect "http://proxy:8080" envNoProxySet (by decide)).2.2.2.1
     "corp.internal" (by decide),
   (C10_proxy_env_effect "http://proxy:8080" envEmpty (by decide)).2.2.2.2.1
     "PATH" (by decide) (by decide) (by decide),
   (C10_proxy_env_effect "http://proxy:8080" envEmpty (by decide)).2.2.2.2.2.1,
   (C10_proxy_env_effect "http://proxy:8080" envNoProxySet (by decide)).2.2.2.2.2.2⟩
